import Mathlib

/-!
Shallow embedding of the circulation-restriction engine of
`src/reglas_service.py` (programa "Hoy No Circula", CDMX), together with
the `NivelContingencia` enumeration it consumes from
`src/contingencia_service.py`.

Python `date` objects are embedded as a `Fecha` structure carrying year,
month and day; `Fecha.isoweekday` reproduces `datetime.date.isoweekday`
via the proleptic-Gregorian ordinal, exactly as CPython computes it.
The evaluation function `evaluar_circulacion` mirrors the source line by
line; the `ValueError` raises become the `Except.error` branch.
-/

namespace NoCircula

/-- The `NivelContingencia` string enum of `contingencia_service.py`. -/
inductive NivelContingencia where
  | NINGUNA
  | FASE_1
  | FASE_2
deriving DecidableEq, Repr

/-- The `.value` payload of the Python string enum `NivelContingencia`. -/
def NivelContingencia.value : NivelContingencia → String
  | .NINGUNA => "ninguna"
  | .FASE_1 => "fase_1"
  | .FASE_2 => "fase_2"

/-- The `Holograma` string enum of `reglas_service.py`. -/
inductive Holograma where
  | CERO_CERO
  | CERO
  | UNO
  | DOS
deriving DecidableEq, Repr

/-- The `.value` payload of the Python string enum `Holograma`. -/
def Holograma.value : Holograma → String
  | .CERO_CERO => "00"
  | .CERO => "0"
  | .UNO => "1"
  | .DOS => "2"

/-- Lookup-by-value, i.e. the Python call `Holograma(holograma)`:
`some` on the four recognized strings, `none` (a `ValueError`) otherwise. -/
def Holograma.ofValue (s : String) : Option Holograma :=
  if s = "00" then some .CERO_CERO
  else if s = "0" then some .CERO
  else if s = "1" then some .UNO
  else if s = "2" then some .DOS
  else none

/-- A calendar date, the embedding of Python `datetime.date`. -/
structure Fecha where
  year : Nat
  month : Nat
  day : Nat
deriving DecidableEq, Repr

/-- Gregorian leap-year rule, as in CPython `datetime._is_leap`. -/
def esBisiesto (y : Nat) : Bool :=
  y % 4 == 0 && (y % 100 != 0 || y % 400 == 0)

/-- Cumulative days before month `m` in a non-leap year
(CPython `_DAYS_BEFORE_MONTH`). -/
def _DIAS_ACUM : Nat → Nat
  | 1 => 0
  | 2 => 31
  | 3 => 59
  | 4 => 90
  | 5 => 120
  | 6 => 151
  | 7 => 181
  | 8 => 212
  | 9 => 243
  | 10 => 273
  | 11 => 304
  | 12 => 334
  | _ => 0

/-- Proleptic-Gregorian ordinal of a date (CPython `date.toordinal`):
day 1 is January 1 of year 1. -/
def Fecha.toordinal (f : Fecha) : Nat :=
  let n := f.year - 1
  n * 365 + n / 4 - n / 100 + n / 400
    + _DIAS_ACUM f.month
    + (if esBisiesto f.year ∧ 2 < f.month then 1 else 0)
    + f.day

/-- `date.isoweekday()`: 1 = Monday … 7 = Sunday.  January 1 of year 1
was a Monday in the proleptic Gregorian calendar. -/
def Fecha.isoweekday (f : Fecha) : Nat :=
  (f.toordinal - 1) % 7 + 1

/-- `RESTRICCION_SEMANAL`: ISO weekday (1 = lunes … 5 = viernes) to the
restricted final plate digits, from `reglas_service.py`. -/
def RESTRICCION_SEMANAL : List (Nat × List Int) :=
  [(1, [5, 6]),
   (2, [7, 8]),
   (3, [3, 4]),
   (4, [1, 2]),
   (5, [9, 0])]

/-- `SABADO_SEMANAS_IMPARES`: Saturday digits for odd weeks of the month. -/
def SABADO_SEMANAS_IMPARES : List Int := [5, 6, 7, 8]

/-- `SABADO_SEMANAS_PARES`: Saturday digits for even weeks of the month. -/
def SABADO_SEMANAS_PARES : List Int := [0, 1, 2, 3, 4, 9]

/-- `FASE2_RESTRICCION_HOLOGRAMA_0_00`: under Fase 2, the digits
restricted per weekday for the normally exempt hologramas 0/00. -/
def FASE2_RESTRICCION_HOLOGRAMA_0_00 : List (Nat × List Int) :=
  [(1, [0, 1, 2, 3, 4]),
   (2, [5, 6, 7, 8, 9]),
   (3, [0, 1, 2, 3, 4]),
   (4, [5, 6, 7, 8, 9]),
   (5, [0, 1, 2, 3, 4])]

/-- The `ResultadoCirculacion` dataclass. -/
structure ResultadoCirculacion where
  puede_circular : Bool
  razon : String
  restriccion_normal : Bool
  restriccion_contingencia : Bool
  nivel_contingencia : NivelContingencia
  dia : String
  holograma : String
  ultimo_digito : Int
deriving DecidableEq, Repr

/-- `_semana_del_mes`: 1-indexed week of the month of a date. -/
def _semana_del_mes (fecha : Fecha) : Nat :=
  (fecha.day - 1) / 7 + 1

/-- `_digitos_restringidos_sabado`: which digits do not circulate on the
Saturday of the given date, by week-of-month parity. -/
def _digitos_restringidos_sabado (fecha : Fecha) : List Int :=
  let semana := _semana_del_mes fecha
  if semana % 2 ≠ 0 then SABADO_SEMANAS_IMPARES else SABADO_SEMANAS_PARES

/-- The `NOMBRES_DIA` dict mapping ISO weekday to its Spanish name. -/
def NOMBRES_DIA : List (Nat × String) :=
  [(1, "lunes"), (2, "martes"), (3, "miércoles"), (4, "jueves"),
   (5, "viernes"), (6, "sábado"), (7, "domingo")]

/-- Embedding of the Python expression `s.replace('_', ' ').upper()` as
used on `nivel_contingencia.value` (a character-wise replacement followed
by upper-casing; the pattern replaced is the single character `_`). -/
def _replaceUnderscoreUpper (s : String) : String :=
  ⟨(s.data.map fun c => if c = '_' then ' ' else c).map Char.toUpper⟩

/-- `fecha.strftime("%A")` is locale dependent; `evaluar_circulacion`
uses it only as the fallback day name when the ISO weekday is not a key
of `NOMBRES_DIA`, which never happens (ISO weekdays are always 1–7).
Embedded as the empty string. -/
def _strftimeA (_fecha : Fecha) : String := ""

/-- `evaluar_circulacion` of `reglas_service.py`.  The two `ValueError`
raises are the `Except.error` branch; every other path returns `.ok`.
The optional `fecha=None` default (use today) is outside a pure
embedding, so `fecha` is a required argument here. -/
def evaluar_circulacion (ultimo_digito : Int) (holograma : String)
    (nivel_contingencia : NivelContingencia) (fecha : Fecha) :
    Except String ResultadoCirculacion :=
  match Holograma.ofValue holograma with
  | none =>
    .error ("Holograma inválido: " ++ holograma ++
      ". Valores aceptados: [00, 0, 1, 2]")
  | some holograma_enum =>
    if ¬ (0 ≤ ultimo_digito ∧ ultimo_digito < 10) then
      -- `ultimo_digito not in range(10)`
      .error ("Último dígito debe ser entre 0 y 9. Se recibió: " ++
        toString ultimo_digito)
    else
      let dia_iso := fecha.isoweekday
      let nombre_dia := _strftimeA fecha
      let nombre_dia_es := (NOMBRES_DIA.lookup dia_iso).getD nombre_dia
      -- 1. Hologramas 0 y 00: exentos en condiciones normales y Fase 1
      if holograma_enum = Holograma.CERO_CERO ∨ holograma_enum = Holograma.CERO then
        if nivel_contingencia = NivelContingencia.FASE_2 ∧
            ultimo_digito ∈ (FASE2_RESTRICCION_HOLOGRAMA_0_00.lookup dia_iso).getD [] then
          .ok { puede_circular := false,
                razon := "Holograma " ++ holograma ++
                  ": normalmente exento, pero en CONTINGENCIA FASE 2 el " ++
                  nombre_dia_es ++ " no circulan placas terminadas en " ++
                  toString ultimo_digito ++ ".",
                restriccion_normal := false,
                restriccion_contingencia := true,
                nivel_contingencia := nivel_contingencia,
                dia := nombre_dia_es,
                holograma := holograma,
                ultimo_digito := ultimo_digito }
        else
          .ok { puede_circular := true,
                razon := "Holograma " ++ holograma ++
                  " está exento del programa Hoy No Circula.",
                restriccion_normal := false,
                restriccion_contingencia := false,
                nivel_contingencia := nivel_contingencia,
                dia := nombre_dia_es,
                holograma := holograma,
                ultimo_digito := ultimo_digito }
      else
        -- 2. Hologramas 1 y 2: restricción diaria (lunes a viernes)
        let restriccion_normal : Bool :=
          match RESTRICCION_SEMANAL.lookup dia_iso with
          | some digitos_hoy => if ultimo_digito ∈ digitos_hoy then true else false
          | none => false
        -- Sábados: solo holograma 2
        let restriccion_normal : Bool :=
          if dia_iso = 6 ∧ holograma_enum = Holograma.DOS then
            (if ultimo_digito ∈ _digitos_restringidos_sabado fecha then true
             else restriccion_normal)
          else restriccion_normal
        -- 3. Contingencia Fase 2: hologramas 1 y 2 no circulan lunes a viernes
        let restriccion_contingencia : Bool :=
          if nivel_contingencia = NivelContingencia.FASE_2 ∧
              (1 ≤ dia_iso ∧ dia_iso < 6) then true
          else false
        -- 4. Contingencia Fase 1: refuerza la restricción normal del día
        let restriccion_contingencia : Bool :=
          if nivel_contingencia = NivelContingencia.FASE_1 then restriccion_normal
          else restriccion_contingencia
        -- 5. Componer resultado
        let no_circula := restriccion_normal || restriccion_contingencia
        let razon : String :=
          if no_circula then
            let causas : List String :=
              (if restriccion_normal then ["programa Hoy No Circula regular"] else []) ++
              (if restriccion_contingencia && !restriccion_normal then
                ["contingencia ambiental " ++
                  _replaceUnderscoreUpper nivel_contingencia.value]
               else [])
            "Placa terminada en " ++ toString ultimo_digito ++
              " con holograma " ++ holograma ++ " NO CIRCULA el " ++
              nombre_dia_es ++ " por: " ++ String.intercalate ", " causas ++ "."
          else
            "Placa terminada en " ++ toString ultimo_digito ++
              " con holograma " ++ holograma ++ " puede circular el " ++
              nombre_dia_es ++ " sin restricciones."
        .ok { puede_circular := !no_circula,
              razon := razon,
              restriccion_normal := restriccion_normal,
              restriccion_contingencia := restriccion_contingencia,
              nivel_contingencia := nivel_contingencia,
              dia := nombre_dia_es,
              holograma := holograma,
              ultimo_digito := ultimo_digito }

/-- A default result record, used only to extract the payload of an
`Except.ok` value. -/
def defaultResultado : ResultadoCirculacion :=
  { puede_circular := true, razon := "", restriccion_normal := false,
    restriccion_contingencia := false,
    nivel_contingencia := NivelContingencia.NINGUNA, dia := "",
    holograma := "", ultimo_digito := 0 }

/-- Extract the result of a successful evaluation. -/
def getOk : Except String ResultadoCirculacion → ResultadoCirculacion
  | .ok r => r
  | .error _ => defaultResultado

/-- `empiezaCon n l`: the character list `n` is a prefix of `l`. -/
def empiezaCon : List Char → List Char → Bool
  | [], _ => true
  | _ :: _, [] => false
  | a :: as, b :: bs => a == b && empiezaCon as bs

/-- `contiene sub l`: the character list `sub` occurs contiguously in `l`. -/
def contiene (sub : List Char) : List Char → Bool
  | [] => empiezaCon sub []
  | c :: rest => empiezaCon sub (c :: rest) || contiene sub rest

/-- `mencion s sub`: the string `s` mentions `sub` as a substring. -/
def mencion (s sub : String) : Bool :=
  contiene sub.data s.data

/-- The reason string cites the regular program as a cause. -/
def citaProgramaRegular (razon : String) : Bool :=
  mencion razon "programa Hoy No Circula regular"

/-- The reason string cites the environmental contingency together with
its level, in either of the two spellings the engine produces
(`contingencia ambiental FASE n` on the restricted-sticker path,
`CONTINGENCIA FASE 2` on the exempt-sticker path). -/
def citaContingencia (razon : String) (nivel : NivelContingencia) : Bool :=
  mencion razon ("contingencia ambiental " ++ _replaceUnderscoreUpper nivel.value) ||
  mencion razon ("CONTINGENCIA " ++ _replaceUnderscoreUpper nivel.value)

/-- The reason string is a no-restriction message: either the blanket
sticker exemption or the clean `sin restricciones` closing. -/
def razonSinRestriccion (razon : String) : Bool :=
  mencion razon "está exento del programa Hoy No Circula" ||
  mencion razon "sin restricciones"

theorem isoweekday_pos (f : Fecha) : 1 ≤ f.isoweekday :=
  Nat.le_add_left 1 _

theorem isoweekday_le (f : Fecha) : f.isoweekday ≤ 7 :=
  Nat.succ_le_succ (Nat.le_of_lt_succ (Nat.mod_lt _ (by decide)))

theorem empiezaCon_append_of {n l₁ : List Char} (l₂ : List Char)
    (h : empiezaCon n l₁ = true) : empiezaCon n (l₁ ++ l₂) = true := by
  induction n generalizing l₁ with
  | nil => simp [empiezaCon]
  | cons a as ih =>
    cases l₁ with
    | nil => simp [empiezaCon] at h
    | cons b bs =>
      simp only [empiezaCon, Bool.and_eq_true] at h ⊢
      exact ⟨h.1, ih h.2⟩

theorem contiene_of_empiezaCon {n l : List Char}
    (h : empiezaCon n l = true) : contiene n l = true := by
  cases l with
  | nil => simpa [contiene] using h
  | cons c rest => simp [contiene, h]

theorem contiene_append_left {n l₂ : List Char} (l₁ : List Char)
    (h : contiene n l₂ = true) : contiene n (l₁ ++ l₂) = true := by
  induction l₁ with
  | nil => simpa using h
  | cons c cs ih =>
    simp only [List.cons_append, contiene, Bool.or_eq_true]
    exact Or.inr ih

theorem contiene_append_right {n l₁ : List Char} (l₂ : List Char)
    (h : contiene n l₁ = true) : contiene n (l₁ ++ l₂) = true := by
  induction l₁ with
  | nil =>
    simp only [contiene] at h
    cases n with
    | nil => exact contiene_of_empiezaCon (by simp [empiezaCon])
    | cons a as => simp [empiezaCon] at h
  | cons c cs ih =>
    simp only [List.cons_append, contiene, Bool.or_eq_true] at h ⊢
    cases h with
    | inl h => exact Or.inl (empiezaCon_append_of _ h)
    | inr h => exact Or.inr (ih h)

theorem mencion_append_left {t s : String} (u : String)
    (h : mencion t s = true) : mencion (u ++ t) s = true :=
  contiene_append_left u.data h

theorem mencion_append_right {t s : String} (u : String)
    (h : mencion t s = true) : mencion (t ++ u) s = true :=
  contiene_append_right u.data h

/-- The evaluation ran without raising (`Except.ok`). -/
def esOk : Except String ResultadoCirculacion → Bool
  | .ok _ => true
  | .error _ => false

theorem esOk_ok (r : ResultadoCirculacion) : esOk (.ok r) = true := rfl

theorem esOk_error (e : String) : esOk (.error e) = false := rfl

theorem ofValue_value (h : Holograma) : Holograma.ofValue h.value = some h := by
  cases h <;> rfl

/-- C2: `evaluar_circulacion` raises a validation error if and only if
`ultimo_digito` is outside 0–9 or `holograma` is not one of the four
recognized categories; equivalently, it returns a result without raising
exactly on every valid combination of digit, sticker, contingency level
and calendar date. -/
theorem claim_C2_validacion (d : Int) (hol : String)
    (niv : NivelContingencia) (fecha : Fecha) :
    esOk (evaluar_circulacion d hol niv fecha) = true ↔
    (hol ∈ (["00", "0", "1", "2"] : List String) ∧ 0 ≤ d ∧ d < 10) := by
  by_cases h00 : hol = "00" <;> by_cases h0 : hol = "0" <;>
    by_cases h1 : hol = "1" <;> by_cases h2 : hol = "2" <;>
    by_cases hdv : 0 ≤ d ∧ d < 10 <;>
    simp_all [evaluar_circulacion, Holograma.ofValue, apply_ite esOk,
      esOk_ok, esOk_error, ite_self]

/-- C3: for every valid input whose date falls on a Sunday (ISO weekday
7) — any last digit, any of the four sticker categories, any of the
three contingency levels — the evaluation returns `puede_circular =
true`. -/
theorem claim_C3_domingo (d : Int) (hd : 0 ≤ d ∧ d < 10) (hol : Holograma)
    (niv : NivelContingencia) (fecha : Fecha) (hw : fecha.isoweekday = 7)
    (r : ResultadoCirculacion)
    (hr : evaluar_circulacion d hol.value niv fecha = .ok r) :
    r.puede_circular = true := by
  cases hol <;> cases niv <;>
    simp only [evaluar_circulacion, ofValue_value, hw, not_not_intro hd,
      FASE2_RESTRICCION_HOLOGRAMA_0_00, RESTRICCION_SEMANAL,
      List.lookup, if_false, ite_false, reduceCtorEq] at hr <;>
    simp_all <;> (subst hr; rfl)

theorem claim_C3_witness :
    (0 : Int) ≤ 4 ∧ (4 : Int) < 10 ∧
    Fecha.isoweekday ⟨2024, 1, 7⟩ = 7 ∧
    (getOk (evaluar_circulacion 4 Holograma.DOS.value
      NivelContingencia.FASE_2 ⟨2024, 1, 7⟩)).puede_circular = true :=
  ⟨by decide, by decide, by decide,
    claim_C3_domingo 4 (by decide) Holograma.DOS NivelContingencia.FASE_2
      ⟨2024, 1, 7⟩ (by decide) _ rfl⟩

/-- C4: for every valid input with sticker `UNO` or `DOS` and contingency
level `FASE_1`, the result has `restriccion_contingencia = true` if and
only if `restriccion_normal = true`: Fase 1 never creates a restriction
on a day the base program did not already restrict. -/
theorem claim_C4_fase1_monotona (d : Int) (hd : 0 ≤ d ∧ d < 10)
    (hol : Holograma) (hhol : hol = Holograma.UNO ∨ hol = Holograma.DOS)
    (fecha : Fecha) (r : ResultadoCirculacion)
    (hr : evaluar_circulacion d hol.value NivelContingencia.FASE_1 fecha = .ok r) :
    r.restriccion_contingencia = true ↔ r.restriccion_normal = true := by
  rcases hhol with h | h <;> subst h <;>
    simp only [evaluar_circulacion, ofValue_value, not_not_intro hd, if_false,
      reduceCtorEq, or_self, ite_false, Except.ok.injEq] at hr <;>
    (subst hr; simp)

theorem claim_C4_witness :
    (0 : Int) ≤ 5 ∧ (5 : Int) < 10 ∧
    ((getOk (evaluar_circulacion 5 Holograma.UNO.value
        NivelContingencia.FASE_1 ⟨2024, 1, 1⟩)).restriccion_contingencia = true ↔
     (getOk (evaluar_circulacion 5 Holograma.UNO.value
        NivelContingencia.FASE_1 ⟨2024, 1, 1⟩)).restriccion_normal = true) :=
  ⟨by decide, by decide,
    claim_C4_fase1_monotona 5 (by decide) Holograma.UNO (Or.inl rfl)
      ⟨2024, 1, 1⟩ _ rfl⟩

/-- C5: for every valid input with sticker `UNO` or `DOS`, contingency
level `FASE_2`, and a date whose ISO weekday is 1–5 (Monday–Friday),
the evaluation returns `puede_circular = false` regardless of the last
digit. -/
theorem claim_C5_fase2_total (d : Int) (hd : 0 ≤ d ∧ d < 10)
    (hol : Holograma) (hhol : hol = Holograma.UNO ∨ hol = Holograma.DOS)
    (fecha : Fecha) (hw : 1 ≤ fecha.isoweekday ∧ fecha.isoweekday ≤ 5)
    (r : ResultadoCirculacion)
    (hr : evaluar_circulacion d hol.value NivelContingencia.FASE_2 fecha = .ok r) :
    r.puede_circular = false := by
  obtain ⟨w, hwe⟩ : ∃ w, fecha.isoweekday = w := ⟨_, rfl⟩
  rw [hwe] at hw
  obtain ⟨hw1, hw5⟩ := hw
  rcases hhol with h | h <;> subst h <;>
    simp only [evaluar_circulacion, ofValue_value, hwe, not_not_intro hd] at hr <;>
    interval_cases w <;>
    simp_all [RESTRICCION_SEMANAL, List.lookup] <;> (subst hr; rfl)

theorem claim_C5_witness :
    (0 : Int) ≤ 3 ∧ (3 : Int) < 10 ∧
    1 ≤ Fecha.isoweekday ⟨2024, 1, 1⟩ ∧ Fecha.isoweekday ⟨2024, 1, 1⟩ ≤ 5 ∧
    (getOk (evaluar_circulacion 3 Holograma.UNO.value
      NivelContingencia.FASE_2 ⟨2024, 1, 1⟩)).puede_circular = false :=
  ⟨by decide, by decide, by decide, by decide,
    claim_C5_fase2_total 3 (by decide) Holograma.UNO (Or.inl rfl)
      ⟨2024, 1, 1⟩ (by decide) _ rfl⟩

/-- C6: for every valid input with an exempt sticker (`CERO_CERO` or
`CERO`) and contingency level `NINGUNA` or `FASE_1`, the evaluation
returns `puede_circular = true` for every last digit and every date. -/
theorem claim_C6_exentos (d : Int) (hd : 0 ≤ d ∧ d < 10) (hol : Holograma)
    (hhol : hol = Holograma.CERO_CERO ∨ hol = Holograma.CERO)
    (niv : NivelContingencia)
    (hniv : niv = NivelContingencia.NINGUNA ∨ niv = NivelContingencia.FASE_1)
    (fecha : Fecha) (r : ResultadoCirculacion)
    (hr : evaluar_circulacion d hol.value niv fecha = .ok r) :
    r.puede_circular = true := by
  rcases hhol with h | h <;> rcases hniv with g | g <;> subst h <;> subst g <;>
    simp only [evaluar_circulacion, ofValue_value, not_not_intro hd,
      reduceCtorEq, false_and, if_false, ite_false, or_self, or_true, true_or,
      if_true, ite_true, Except.ok.injEq] at hr <;>
    (subst hr; rfl)

theorem claim_C6_witness :
    (0 : Int) ≤ 9 ∧ (9 : Int) < 10 ∧
    (getOk (evaluar_circulacion 9 Holograma.CERO.value
      NivelContingencia.FASE_1 ⟨2024, 1, 1⟩)).puede_circular = true :=
  ⟨by decide, by decide,
    claim_C6_exentos 9 (by decide) Holograma.CERO (Or.inr rfl)
      NivelContingencia.FASE_1 (Or.inr rfl) ⟨2024, 1, 1⟩ _ rfl⟩

/-- C7: for every valid input with an exempt sticker and contingency
level `FASE_2`, the result has `puede_circular = false` (and
`restriccion_contingencia = true`) exactly when the ISO weekday is
Monday/Wednesday/Friday with digit in {0,1,2,3,4} or Tuesday/Thursday
with digit in {5,6,7,8,9}; on Saturday and Sunday exempt stickers are
never restricted even under Fase 2. -/
theorem claim_C7_fase2_exentos (d : Int) (hd : 0 ≤ d ∧ d < 10)
    (hol : Holograma)
    (hhol : hol = Holograma.CERO_CERO ∨ hol = Holograma.CERO)
    (fecha : Fecha) (r : ResultadoCirculacion)
    (hr : evaluar_circulacion d hol.value NivelContingencia.FASE_2 fecha = .ok r) :
    (r.puede_circular = false ↔
      ((fecha.isoweekday ∈ ([1, 3, 5] : List Nat) ∧ d ∈ ([0, 1, 2, 3, 4] : List Int)) ∨
       (fecha.isoweekday ∈ ([2, 4] : List Nat) ∧ d ∈ ([5, 6, 7, 8, 9] : List Int)))) ∧
    (r.restriccion_contingencia = true ↔
      ((fecha.isoweekday ∈ ([1, 3, 5] : List Nat) ∧ d ∈ ([0, 1, 2, 3, 4] : List Int)) ∨
       (fecha.isoweekday ∈ ([2, 4] : List Nat) ∧ d ∈ ([5, 6, 7, 8, 9] : List Int)))) := by
  obtain ⟨w, hwe⟩ : ∃ w, fecha.isoweekday = w := ⟨_, rfl⟩
  have h1 := isoweekday_pos fecha
  have h7 := isoweekday_le fecha
  rw [hwe] at h1 h7
  rw [hwe]
  rcases hhol with h | h <;> subst h <;>
    simp only [evaluar_circulacion, ofValue_value, hwe, not_not_intro hd,
      FASE2_RESTRICCION_HOLOGRAMA_0_00, List.lookup, reduceCtorEq,
      eq_self_iff_true, true_or, or_true, or_self, if_true, ite_true,
      if_false, ite_false, true_and] at hr <;>
    interval_cases w <;>
    simp_all [List.lookup] <;>
    (try split at hr) <;>
    (try (injection hr with h2; subst h2)) <;>
    (try subst hr) <;>
    simp_all

theorem claim_C7_witness :
    (0 : Int) ≤ 0 ∧ (0 : Int) < 10 ∧
    ((getOk (evaluar_circulacion 0 Holograma.CERO_CERO.value
        NivelContingencia.FASE_2 ⟨2024, 1, 1⟩)).puede_circular = false ↔
      ((Fecha.isoweekday ⟨2024, 1, 1⟩ ∈ ([1, 3, 5] : List Nat) ∧
          (0 : Int) ∈ ([0, 1, 2, 3, 4] : List Int)) ∨
       (Fecha.isoweekday ⟨2024, 1, 1⟩ ∈ ([2, 4] : List Nat) ∧
          (0 : Int) ∈ ([5, 6, 7, 8, 9] : List Int)))) :=
  ⟨by decide, by decide,
    (claim_C7_fase2_exentos 0 (by decide) Holograma.CERO_CERO (Or.inl rfl)
      ⟨2024, 1, 1⟩ _ rfl).1⟩

/-- C8: the Saturday-restricted digit set is determined solely by
week-of-month parity, where the week of the month is
`(day - 1) / 7 + 1`: on an odd-week Saturday a `DOS`-sticker vehicle is
base-restricted exactly when its digit is in {5,6,7,8}, on an even-week
Saturday exactly when its digit is in {0,1,2,3,4,9}; those two sets are
exact complements of 0–9, so for two Saturdays in the same month whose
week-of-month parity differs, the vehicle is base-restricted on exactly
one of the two dates. -/
theorem claim_C8_rotacion_sabados (d : Int) (hd : 0 ≤ d ∧ d < 10)
    (f1 f2 : Fecha) (_hmes : f1.year = f2.year ∧ f1.month = f2.month)
    (h61 : f1.isoweekday = 6) (h62 : f2.isoweekday = 6)
    (hpar : _semana_del_mes f1 % 2 ≠ _semana_del_mes f2 % 2)
    (r1 r2 : ResultadoCirculacion)
    (e1 : evaluar_circulacion d Holograma.DOS.value NivelContingencia.NINGUNA f1 = .ok r1)
    (e2 : evaluar_circulacion d Holograma.DOS.value NivelContingencia.NINGUNA f2 = .ok r2) :
    (_semana_del_mes f1 = (f1.day - 1) / 7 + 1) ∧
    (_semana_del_mes f1 % 2 = 1 →
      (r1.restriccion_normal = true ↔ d ∈ ([5, 6, 7, 8] : List Int))) ∧
    (_semana_del_mes f1 % 2 = 0 →
      (r1.restriccion_normal = true ↔ d ∈ ([0, 1, 2, 3, 4, 9] : List Int))) ∧
    (d ∈ ([5, 6, 7, 8] : List Int) ↔ d ∉ ([0, 1, 2, 3, 4, 9] : List Int)) ∧
    (r1.restriccion_normal = true ↔ r2.restriccion_normal = false) := by
  refine ⟨rfl, ?_⟩
  simp only [evaluar_circulacion, ofValue_value, not_not_intro hd,
    reduceCtorEq, eq_self_iff_true, or_self, if_false, ite_false,
    RESTRICCION_SEMANAL, List.lookup, h61, h62, true_and, and_true,
    if_true, ite_true, and_self, false_and] at e1 e2
  rcases Nat.mod_two_eq_zero_or_one (_semana_del_mes f1) with p1 | p1 <;>
    rcases Nat.mod_two_eq_zero_or_one (_semana_del_mes f2) with p2 | p2 <;>
    simp_all [_digitos_restringidos_sabado] <;>
    (obtain ⟨d0, d9⟩ := hd) <;>
    (interval_cases d <;>
      simp_all [SABADO_SEMANAS_IMPARES, SABADO_SEMANAS_PARES] <;>
      (try subst e1) <;> (try subst e2) <;>
      (first | rfl | decide))

theorem claim_C8_witness :
    (0 : Int) ≤ 7 ∧ (7 : Int) < 10 ∧
    Fecha.isoweekday ⟨2024, 1, 6⟩ = 6 ∧ Fecha.isoweekday ⟨2024, 1, 13⟩ = 6 ∧
    _semana_del_mes ⟨2024, 1, 6⟩ % 2 ≠ _semana_del_mes ⟨2024, 1, 13⟩ % 2 ∧
    _semana_del_mes (⟨2024, 1, 6⟩ : Fecha) % 2 = 1 ∧
    ((getOk (evaluar_circulacion 7 Holograma.DOS.value
        NivelContingencia.NINGUNA ⟨2024, 1, 6⟩)).restriccion_normal = true ↔
      (7 : Int) ∈ ([5, 6, 7, 8] : List Int)) ∧
    ((getOk (evaluar_circulacion 7 Holograma.DOS.value
        NivelContingencia.NINGUNA ⟨2024, 1, 6⟩)).restriccion_normal = true ↔
     (getOk (evaluar_circulacion 7 Holograma.DOS.value
        NivelContingencia.NINGUNA ⟨2024, 1, 13⟩)).restriccion_normal = false) :=
  ⟨by decide, by decide, by decide, by decide, by decide, by decide,
    (claim_C8_rotacion_sabados 7 (by decide) ⟨2024, 1, 6⟩ ⟨2024, 1, 13⟩
      ⟨rfl, rfl⟩ (by decide) (by decide) (by decide) _ _ rfl rfl).2.1
      (by decide),
    (claim_C8_rotacion_sabados 7 (by decide) ⟨2024, 1, 6⟩ ⟨2024, 1, 13⟩
      ⟨rfl, rfl⟩ (by decide) (by decide) (by decide) _ _ rfl rfl).2.2.2.2⟩

/-- C9: for every valid input with sticker `UNO` and a Saturday date
(ISO weekday 6), the evaluation returns `puede_circular = true` with
both restriction flags false, for every last digit and every
contingency level. -/
theorem claim_C9_uno_sabado (d : Int) (hd : 0 ≤ d ∧ d < 10)
    (niv : NivelContingencia) (fecha : Fecha) (hw : fecha.isoweekday = 6)
    (r : ResultadoCirculacion)
    (hr : evaluar_circulacion d Holograma.UNO.value niv fecha = .ok r) :
    r.puede_circular = true ∧ r.restriccion_normal = false ∧
      r.restriccion_contingencia = false := by
  cases niv <;>
    simp only [evaluar_circulacion, ofValue_value, hw, not_not_intro hd,
      RESTRICCION_SEMANAL, List.lookup, reduceCtorEq] at hr <;>
    simp_all <;> (subst hr; exact ⟨rfl, rfl, rfl⟩)

theorem claim_C9_witness :
    (0 : Int) ≤ 6 ∧ (6 : Int) < 10 ∧
    Fecha.isoweekday ⟨2024, 1, 6⟩ = 6 ∧
    ((getOk (evaluar_circulacion 6 Holograma.UNO.value
        NivelContingencia.FASE_2 ⟨2024, 1, 6⟩)).puede_circular = true ∧
     (getOk (evaluar_circulacion 6 Holograma.UNO.value
        NivelContingencia.FASE_2 ⟨2024, 1, 6⟩)).restriccion_normal = false ∧
     (getOk (evaluar_circulacion 6 Holograma.UNO.value
        NivelContingencia.FASE_2 ⟨2024, 1, 6⟩)).restriccion_contingencia = false) :=
  ⟨by decide, by decide, by decide,
    claim_C9_uno_sabado 6 (by decide) NivelContingencia.FASE_2
      ⟨2024, 1, 6⟩ (by decide) _ rfl⟩

/-- C10: every result produced on every return path satisfies
`puede_circular = not (restriccion_normal or restriccion_contingencia)`,
and for exempt stickers `restriccion_normal` is always false even when
Fase 2 restricts the vehicle — the restriction is attributed only to the
contingency flag. -/
theorem claim_C10_invariante (d : Int) (hd : 0 ≤ d ∧ d < 10)
    (hol : Holograma) (niv : NivelContingencia) (fecha : Fecha)
    (r : ResultadoCirculacion)
    (hr : evaluar_circulacion d hol.value niv fecha = .ok r) :
    r.puede_circular = !(r.restriccion_normal || r.restriccion_contingencia) ∧
    ((hol = Holograma.CERO_CERO ∨ hol = Holograma.CERO) →
      r.restriccion_normal = false) := by
  cases hol <;>
    simp only [evaluar_circulacion, ofValue_value, not_not_intro hd,
      reduceCtorEq, eq_self_iff_true, true_or, or_true, or_self, or_false,
      false_or, if_true, ite_true, if_false, ite_false] at hr <;>
    (try split at hr) <;>
    (injection hr with h; subst h) <;>
    refine ⟨rfl, ?_⟩ <;> simp

theorem claim_C10_witness :
    (0 : Int) ≤ 1 ∧ (1 : Int) < 10 ∧
    ((getOk (evaluar_circulacion 1 Holograma.CERO_CERO.value
        NivelContingencia.FASE_2 ⟨2024, 1, 1⟩)).puede_circular =
      !((getOk (evaluar_circulacion 1 Holograma.CERO_CERO.value
          NivelContingencia.FASE_2 ⟨2024, 1, 1⟩)).restriccion_normal ||
        (getOk (evaluar_circulacion 1 Holograma.CERO_CERO.value
          NivelContingencia.FASE_2 ⟨2024, 1, 1⟩)).restriccion_contingencia) ∧
     ((Holograma.CERO_CERO = Holograma.CERO_CERO ∨
        Holograma.CERO_CERO = Holograma.CERO) →
       (getOk (evaluar_circulacion 1 Holograma.CERO_CERO.value
          NivelContingencia.FASE_2 ⟨2024, 1, 1⟩)).restriccion_normal = false)) :=
  ⟨by decide, by decide,
    claim_C10_invariante 1 (by decide) Holograma.CERO_CERO
      NivelContingencia.FASE_2 ⟨2024, 1, 1⟩ _ rfl⟩

/-- C1 counterexample: on digit 5, holograma `1`, Fase 2, Monday
2024-01-01, both restriction flags are true but the reason cites only
the regular program — the environmental contingency and its level are
not mentioned, refuting the claim that every true cause is cited. -/
theorem claim_C1_counterexample :
    (getOk (evaluar_circulacion 5 "1" NivelContingencia.FASE_2
      ⟨2024, 1, 1⟩)).restriccion_normal = true ∧
    (getOk (evaluar_circulacion 5 "1" NivelContingencia.FASE_2
      ⟨2024, 1, 1⟩)).restriccion_contingencia = true ∧
    (getOk (evaluar_circulacion 5 "1" NivelContingencia.FASE_2
      ⟨2024, 1, 1⟩)).puede_circular = false ∧
    citaContingencia (getOk (evaluar_circulacion 5 "1"
      NivelContingencia.FASE_2 ⟨2024, 1, 1⟩)).razon
      NivelContingencia.FASE_2 = false := by
  decide

set_option maxHeartbeats 2000000 in
/-- C1 (amended): for every valid input on which the evaluation returns
`puede_circular = false`, the reason cites the regular program whenever
`restriccion_normal` is true, and cites the environmental contingency
with its level whenever `restriccion_contingencia` is true and
`restriccion_normal` is false; when `puede_circular = true` the reason
is a no-restriction message. -/
theorem claim_C1_razon_amended (d : Int) (hd : 0 ≤ d ∧ d < 10)
    (hol : Holograma) (niv : NivelContingencia) (fecha : Fecha)
    (r : ResultadoCirculacion)
    (hr : evaluar_circulacion d hol.value niv fecha = .ok r) :
    (r.puede_circular = false →
      (r.restriccion_normal = true → citaProgramaRegular r.razon = true) ∧
      (r.restriccion_contingencia = true → r.restriccion_normal = false →
        citaContingencia r.razon niv = true)) ∧
    (r.puede_circular = true → razonSinRestriccion r.razon = true) := by
  cases hol <;> cases niv <;>
    simp only [evaluar_circulacion, ofValue_value, not_not_intro hd,
      reduceCtorEq, eq_self_iff_true, true_or, or_true, or_self, or_false,
      false_or, true_and, and_true, false_and, and_false, if_true, ite_true,
      if_false, ite_false] at hr <;>
    (try split at hr) <;>
    (try (injection hr with h; subst h)) <;>
    refine ⟨fun hp => ⟨fun hn => ?_, fun hc hn2 => ?_⟩, fun hp => ?_⟩ <;>
    simp_all only [citaProgramaRegular, citaContingencia, razonSinRestriccion,
      Bool.or_eq_true, Bool.not_eq_true', Bool.or_eq_false_iff, Bool.not_eq_false,
      Bool.and_eq_true, Bool.not_eq_true, Bool.false_or, Bool.or_false,
      Bool.true_or, Bool.or_true, Bool.and_false, Bool.false_and,
      if_true, ite_true, if_false, ite_false, List.append_nil, List.nil_append,
      Bool.not_false, Bool.not_true, reduceCtorEq] <;>
    first
      | rfl
      | exact mencion_append_right _ (mencion_append_left _ (by decide))
      | exact Or.inl (mencion_append_right _ (mencion_append_left _ (by decide)))
      | exact Or.inr (mencion_append_right _ (mencion_append_right _
          (mencion_append_right _ (mencion_append_right _
            (mencion_append_left _ (by decide))))))
      | exact Or.inl (mencion_append_left _ (by decide))
      | exact Or.inr (mencion_append_left _ (by decide))

theorem claim_C1_witness :
    (0 : Int) ≤ 0 ∧ (0 : Int) < 10 ∧
    (((getOk (evaluar_circulacion 0 Holograma.CERO_CERO.value
        NivelContingencia.FASE_2 ⟨2024, 1, 1⟩)).puede_circular = false →
      ((getOk (evaluar_circulacion 0 Holograma.CERO_CERO.value
          NivelContingencia.FASE_2 ⟨2024, 1, 1⟩)).restriccion_normal = true →
        citaProgramaRegular (getOk (evaluar_circulacion 0 Holograma.CERO_CERO.value
          NivelContingencia.FASE_2 ⟨2024, 1, 1⟩)).razon = true) ∧
      ((getOk (evaluar_circulacion 0 Holograma.CERO_CERO.value
          NivelContingencia.FASE_2 ⟨2024, 1, 1⟩)).restriccion_contingencia = true →
        (getOk (evaluar_circulacion 0 Holograma.CERO_CERO.value
          NivelContingencia.FASE_2 ⟨2024, 1, 1⟩)).restriccion_normal = false →
        citaContingencia (getOk (evaluar_circulacion 0 Holograma.CERO_CERO.value
          NivelContingencia.FASE_2 ⟨2024, 1, 1⟩)).razon
          NivelContingencia.FASE_2 = true)) ∧
     ((getOk (evaluar_circulacion 0 Holograma.CERO_CERO.value
        NivelContingencia.FASE_2 ⟨2024, 1, 1⟩)).puede_circular = true →
      razonSinRestriccion (getOk (evaluar_circulacion 0 Holograma.CERO_CERO.value
        NivelContingencia.FASE_2 ⟨2024, 1, 1⟩)).razon = true)) :=
  ⟨by decide, by decide,
    claim_C1_razon_amended 0 (by decide) Holograma.CERO_CERO
      NivelContingencia.FASE_2 ⟨2024, 1, 1⟩ _ rfl⟩

end NoCircula
